import Mathlib

/-!
Formal model of the mic-map acoustic-gesture detection pipeline
(`src/detection/src/noise_detector.cpp`, `src/detection/src/pattern_trainer.cpp`,
`src/core/src/state_machine.cpp`), embedded shallowly: machine floats become
exact rationals, `steady_clock` timestamps become natural-number milliseconds,
and file contents become explicit records.  The two detector kernels that
compute real square roots or exponentials — the combined correlation
`sqrt(pearsonCorr * shapeSimilarity)` built from `computeCorrelation` and
`computeSpectralShapeDistance`, and `computeEnergyConsistency` (which takes the
square root of a variance) — are passed to `analyzeStep` as parameters; every
theorem below holds for all values of those kernels.
-/

namespace MicMap

/-- The constant EPSILON = 1e-10f of noise_detector.cpp. -/
def EPSILON : ℚ := 1 / 10000000000

/-- Result of `ISpectralAnalyzer::analyze` on one audio block: magnitude per
bin, spectral flatness and energy.  The analyzer is a pure function of the
block (spec section 4.1), so detector-level claims take its result as input. -/
structure SpectralResult where
  magnitudes : List ℚ
  spectralFlatness : ℚ
  energy : ℚ
  deriving DecidableEq

/-- The DetectionResult struct of noise_detector.hpp. -/
structure DetectionResult where
  confidence : ℚ
  energy : ℚ
  spectralFlatness : ℚ
  correlation : ℚ
  isWhiteNoise : Bool
  deriving DecidableEq

/-- State of an FFTNoiseDetector (noise_detector.cpp).  Fields prefixed `td`
are the members of the embedded `TrainingData trainingData_`.  The write-only
members `energyMinThreshold_` and `energyVarianceThreshold_` (set in
finishTraining, logged, and never read anywhere in the source) are omitted. -/
structure Detector where
  sampleRate : ℕ
  fftSize : ℕ
  sensitivity : ℚ
  training : Bool
  hasTrainingData : Bool
  minDetectionDurationMs : ℕ
  trainSpectra : List (List ℚ)
  trainEnergies : List ℚ
  trainFlatnesses : List ℚ
  spectralProfile : List ℚ
  tdEnergyThreshold : ℚ
  tdCorrelationThreshold : ℚ
  tdSampleRate : ℕ
  tdTrainedAt : ℤ
  spectralFlatnessThreshold : ℚ
  detectionStartTime : ℕ
  isCurrentlyDetecting : Bool
  spikeTriggered : Bool
  spikeTime : ℕ
  energyHistory : List ℚ
  energyHistoryIndex : ℕ
  confidenceHistory : List Bool
  confidenceHistoryIndex : ℕ
  deriving DecidableEq

/-- FFTNoiseDetector::updateEnergyHistory — ring buffer of ENERGY_HISTORY_SIZE
= 10 slots. -/
def updateEnergyHistory (st : Detector) (energy : ℚ) : Detector :=
  if st.energyHistory.length < 10 then
    { st with energyHistory := st.energyHistory ++ [energy] }
  else
    { st with energyHistory := st.energyHistory.set st.energyHistoryIndex energy,
              energyHistoryIndex := (st.energyHistoryIndex + 1) % 10 }

/-- FFTNoiseDetector::updateConfidenceHistory — ring buffer of
CONFIDENCE_HISTORY_SIZE = 12 slots of high/low flags. -/
def updateConfidenceHistory (st : Detector) (isHigh : Bool) : Detector :=
  if st.confidenceHistory.length < 12 then
    { st with confidenceHistory := st.confidenceHistory ++ [isHigh] }
  else
    { st with confidenceHistory := st.confidenceHistory.set st.confidenceHistoryIndex isHigh,
              confidenceHistoryIndex := (st.confidenceHistoryIndex + 1) % 12 }

/-- FFTNoiseDetector::countHighConfidenceHits. -/
def countHighConfidenceHits (h : List Bool) : ℕ :=
  h.count true

/-- The energy-ratio confidence factor computed inline in
FFTNoiseDetector::analyze (noise_detector.cpp lines 268-278): guarded by
energyThreshold > EPSILON, with ratio = energy / energyThreshold;
ratios in [0.3, 1) score (ratio - 0.3) / 0.7, ratios in [1, 5] score
min(1, 0.8 + ratio * 0.04), anything else scores 0. -/
def energyRatioScore (energy energyThreshold : ℚ) : ℚ :=
  if EPSILON < energyThreshold then
    let ratio := energy / energyThreshold
    if 3/10 ≤ ratio ∧ ratio ≤ 5 then
      if ratio < 1 then (ratio - 3/10) / (7/10)
      else min 1 (8/10 + ratio * (4/100))
    else 0
  else 0

/-- FFTNoiseDetector::updateTemporalState.  Returns the updated state and the
confirmed-detection flag: true only when instant detection holds now and
`now - detectionStartTime >= minDetectionDurationMs` (signed millisecond
arithmetic, as with the C++ chrono durations). -/
def updateTemporalState (st : Detector) (instantDetection : Bool) (now : ℕ) :
    Detector × Bool :=
  if instantDetection then
    let st2 := if st.isCurrentlyDetecting then st
               else { st with detectionStartTime := now, isCurrentlyDetecting := true }
    (st2,
     if (st.minDetectionDurationMs : ℤ) ≤ (now : ℤ) - (st2.detectionStartTime : ℤ)
     then true else false)
  else
    if st.isCurrentlyDetecting then ({ st with isCurrentlyDetecting := false }, false)
    else (st, false)

/-- FFTNoiseDetector::analyze for one block (noise_detector.cpp lines 196-325).
The input is none for a null samples pointer or a zero count, otherwise the
spectral-analysis result of the block; now is the steady-clock timestamp in
milliseconds.  corrFn stands for sqrt(computeCorrelation *
computeSpectralShapeDistance) applied to the current magnitudes and the
trained profile, and consistFn for computeEnergyConsistency applied to the
energy history — both compute real square roots and are therefore parameters.
The spike test energyDb > -10 with energyDb = 10*log10(energy) (floored at
-60 for energy <= EPSILON) is expressed equivalently as energy > 1/10.
The third component of the result is the instantDetection flag of this block,
returned so that runs can be reasoned about. -/
def analyzeGate (corrFn : List ℚ → List ℚ → ℚ) (consistFn : List ℚ → ℚ)
    (st : Detector) (sp : SpectralResult) (now : ℕ) :
    Detector × ℚ × ℚ × Bool :=
  let st1 := updateEnergyHistory st sp.energy
  let spikeDetected := (1 : ℚ)/10 < sp.energy
  let st2 := if spikeDetected ∧ st1.spikeTriggered = false then
               { st1 with spikeTriggered := true, spikeTime := now }
             else st1
  let spikeValid := st2.spikeTriggered = true ∧ (now : ℤ) - (st2.spikeTime : ℤ) < 500
  let st3 := if st2.spikeTriggered = true ∧ ¬ spikeValid ∧ st2.isCurrentlyDetecting = false
             then { st2 with spikeTriggered := false }
             else st2
  let energyConsistency := consistFn st3.energyHistory
  let energyRatio := energyRatioScore sp.energy st3.tdEnergyThreshold
  let corr := corrFn sp.magnitudes st3.spectralProfile
  let confidence := 35/100 * energyRatio + 35/100 * energyConsistency + 30/100 * corr
  let isHighConfidence : Bool := if (60 : ℚ)/100 ≤ confidence then true else false
  let st4 := updateConfidenceHistory st3 isHighConfidence
  let highHits := countHighConfidenceHits st4.confidenceHistory
  let instantDetection : Bool :=
    if st4.isCurrentlyDetecting then (if 2 ≤ highHits then true else false)
    else (if spikeValid ∧ 4 ≤ highHits then true else false)
  let st5 := if instantDetection = false ∧ st4.isCurrentlyDetecting = false ∧ ¬ spikeValid
             then { st4 with spikeTriggered := false }
             else st4
  (st5, confidence, corr, instantDetection)

/-- FFTNoiseDetector::analyze for one block, continued: the null/zero-count
early return, the no-training-data early return, and otherwise the gate above
followed by updateTemporalState on its instantDetection decision. -/
def analyzeStep (corrFn : List ℚ → List ℚ → ℚ) (consistFn : List ℚ → ℚ)
    (st : Detector) (input : Option SpectralResult) (now : ℕ) :
    Detector × DetectionResult × Bool :=
  match input with
  | none =>
      ((updateTemporalState st false now).1, ⟨0, 0, 0, 0, false⟩, false)
  | some sp =>
      if st.hasTrainingData = false then
        (st, ⟨0, sp.energy, sp.spectralFlatness, 0, false⟩, false)
      else
        ((updateTemporalState (analyzeGate corrFn consistFn st sp now).1
            (analyzeGate corrFn consistFn st sp now).2.2.2 now).1,
         ⟨(analyzeGate corrFn consistFn st sp now).2.1, sp.energy, sp.spectralFlatness,
          (analyzeGate corrFn consistFn st sp now).2.2.1,
          (updateTemporalState (analyzeGate corrFn consistFn st sp now).1
            (analyzeGate corrFn consistFn st sp now).2.2.2 now).2⟩,
         (analyzeGate corrFn consistFn st sp now).2.2.2)

/-- A sequence of analyze calls: each element is the block's spectral result
(or none) together with its steady-clock timestamp in milliseconds.  Returns
the final detector state and the per-block outputs. -/
def analyzeRun (corrFn : List ℚ → List ℚ → ℚ) (consistFn : List ℚ → ℚ) :
    Detector → List (Option SpectralResult × ℕ) → Detector × List (DetectionResult × Bool)
  | st, [] => (st, [])
  | st, (inp, t) :: rest =>
      ((analyzeRun corrFn consistFn (analyzeStep corrFn consistFn st inp t).1 rest).1,
       (analyzeStep corrFn consistFn st inp t).2 ::
         (analyzeRun corrFn consistFn (analyzeStep corrFn consistFn st inp t).1 rest).2)

/-- Default output used with List.getD when indexing run outputs. -/
def outDefault : DetectionResult × Bool := (⟨0, 0, 0, 0, false⟩, false)

/-- Default input used with List.getD when indexing run inputs. -/
def inDefault : Option SpectralResult × ℕ := (none, 0)

/-- FFTNoiseDetector::startTraining. -/
def startTraining (st : Detector) : Detector :=
  { st with training := true, trainSpectra := [], trainEnergies := [], trainFlatnesses := [] }

/-- FFTNoiseDetector::addTrainingSample; the input is none for a null pointer
or a zero count, otherwise the spectral-analysis result of the block.  A block
is accepted only in training mode and only if its energy exceeds 0.00001. -/
def addTrainingSample (st : Detector) (input : Option SpectralResult) : Detector :=
  match input with
  | none => st
  | some sp =>
      if st.training = false then st
      else if 1/100000 < sp.energy then
        { st with trainSpectra := st.trainSpectra ++ [sp.magnitudes],
                  trainEnergies := st.trainEnergies ++ [sp.energy],
                  trainFlatnesses := st.trainFlatnesses ++ [sp.spectralFlatness] }
      else st

/-- Sum of squares of a vector, the quantity whose square root
FFTNoiseDetector::normalizeVector divides by. -/
def sumSq (l : List ℚ) : ℚ :=
  (l.map (fun x => x * x)).sum

/-- FFTNoiseDetector::normalizeVector.  The source computes
norm = sqrt(sum of squares), which is irrational in general, so the norm value
is passed as an argument; theorems hypothesise nrm * nrm = sumSq v. -/
def normalizeVector (v : List ℚ) (nrm : ℚ) : List ℚ :=
  if EPSILON < nrm then v.map (fun x => x / nrm) else v

/-- The element-wise average of the accepted training spectra over
trainingSpectra_[0].size() bins, exactly as accumulated in
FFTNoiseDetector::finishTraining (spectrum s contributes s[i] for
i < profileSize and i < s.length). -/
def avgProfile (spectra : List (List ℚ)) : List ℚ :=
  let profileSize := (spectra.headI).length
  let summed := spectra.foldl
    (fun acc s =>
      acc.zipWith (fun a b => a + b) (s.take acc.length ++ List.replicate (acc.length - s.length) 0))
    (List.replicate profileSize 0)
  summed.map (fun v => v / (spectra.length : ℚ))

/-- FFTNoiseDetector::finishTraining (noise_detector.cpp lines 108-188).
nrm stands for the square root of the sum of squares of the averaged profile
(see normalizeVector); nowTs is the training timestamp. -/
def finishTraining (st : Detector) (nrm : ℚ) (nowTs : ℤ) : Detector × Bool :=
  if st.training = false then (st, false)
  else
    let st1 := { st with training := false }
    if st.trainSpectra.isEmpty then (st1, false)
    else if st.trainSpectra.length < 5 then (st1, false)
    else
      let profile := normalizeVector (avgProfile st.trainSpectra) nrm
      let energyMean := st.trainEnergies.sum / (st.trainEnergies.length : ℚ)
      let flatnessMean := st.trainFlatnesses.sum / (st.trainFlatnesses.length : ℚ)
      ({ st1 with
          spectralProfile := profile,
          tdEnergyThreshold := max (1/1000000) energyMean,
          spectralFlatnessThreshold := flatnessMean,
          tdCorrelationThreshold := 4/10 + (1 - st.sensitivity) * (3/10),
          tdSampleRate := st.sampleRate,
          tdTrainedAt := nowTs,
          hasTrainingData := true,
          trainSpectra := [], trainEnergies := [], trainFlatnesses := [] }, true)

/-- FFTNoiseDetector::setSensitivity: clamp to [0, 1] and, when training data
exists, overwrite the correlation threshold with 0.3 + (1 - s) * 0.5. -/
def setSensitivity (st : Detector) (sensitivity : ℚ) : Detector :=
  let s := min (max sensitivity 0) 1
  if st.hasTrainingData then
    { st with sensitivity := s, tdCorrelationThreshold := 3/10 + (1 - s) * (5/10) }
  else
    { st with sensitivity := s }

/-- The TrainingDataHeader record of noise_detector.cpp.  The four magic bytes
are byte values; float fields are exact rationals; the int64 timestamp is an
integer. -/
structure TrainingDataHeader where
  magic : List ℕ
  version : ℕ
  sampleRate : ℕ
  fftSize : ℕ
  profileSize : ℕ
  energyThreshold : ℚ
  correlationThreshold : ℚ
  spectralFlatnessThreshold : ℚ
  timestamp : ℤ
  reserved : List ℕ
  deriving DecidableEq

/-- The magic bytes of the persisted profile format, the characters M M A P. -/
def MAGIC : List ℕ := [77, 77, 65, 80]

/-- A training-data file: the parsed header followed by the float32 payload.
A payload shorter than header.profileSize models a file truncated inside the
profile data (the header read succeeded, the profile read will fail). -/
structure TrainingFile where
  header : TrainingDataHeader
  payload : List ℚ
  deriving DecidableEq

/-- FFTNoiseDetector::saveTrainingData (noise_detector.cpp lines 329-374).
openOk models whether the ofstream opens; writeOk models whether both writes
succeed.  Returns the (unchanged) detector state, the file produced on
success, and the boolean result. -/
def saveTrainingData (st : Detector) (openOk writeOk : Bool) :
    Detector × Option TrainingFile × Bool :=
  if st.hasTrainingData = false then (st, none, false)
  else if openOk = false then (st, none, false)
  else if writeOk = false then (st, none, false)
  else
    (st,
     some ⟨⟨MAGIC, 1, st.tdSampleRate, st.fftSize, st.spectralProfile.length,
            st.tdEnergyThreshold, st.tdCorrelationThreshold, st.spectralFlatnessThreshold,
            st.tdTrainedAt, [0, 0, 0, 0]⟩,
           st.spectralProfile⟩,
     true)

/-- FFTNoiseDetector::loadTrainingData (noise_detector.cpp lines 376-437).
file = none models an open failure.  After the magic, version and size checks
pass, the source resizes trainingData_.spectralProfile to header.profileSize
and only then reads the payload; so when the payload is short the resize has
already happened and the partly-read profile stays behind even though false is
returned — the model reproduces that order faithfully (vector::resize keeps
the old prefix and zero-fills, the partial read then overwrites the prefix
with the available payload). -/
def loadTrainingData (st : Detector) (file : Option TrainingFile) : Detector × Bool :=
  match file with
  | none => (st, false)
  | some f =>
      if f.header.magic ≠ MAGIC then (st, false)
      else if f.header.version ≠ 1 then (st, false)
      else if f.header.profileSize = 0 ∨ 100000 < f.header.profileSize then (st, false)
      else
        let n := f.header.profileSize
        let resized := st.spectralProfile.take n ++ List.replicate (n - st.spectralProfile.length) 0
        let navail := min f.payload.length n
        let newProfile := f.payload.take navail ++ resized.drop navail
        if f.payload.length < n then
          ({ st with spectralProfile := newProfile }, false)
        else
          ({ st with
              spectralProfile := newProfile,
              tdSampleRate := f.header.sampleRate,
              tdEnergyThreshold := f.header.energyThreshold,
              tdCorrelationThreshold := f.header.correlationThreshold,
              spectralFlatnessThreshold := f.header.spectralFlatnessThreshold,
              tdTrainedAt := f.header.timestamp,
              hasTrainingData := true }, true)

/-- The states of the trigger state machine (state_machine.hpp). -/
inductive SMState where
  | Idle
  | Training
  | Detecting
  | Triggered
  | Cooldown
  deriving DecidableEq

/-- StateMachineConfig (state_machine.hpp): durations in milliseconds and the
confidence threshold. -/
structure StateMachineConfig where
  minDetectionDuration : ℕ
  cooldownDuration : ℕ
  detectionThreshold : ℚ
  deriving DecidableEq

/-- The mutable state of StateMachineImpl: current state and time in state. -/
structure StateMachine where
  state : SMState
  timeInState : ℕ
  deriving DecidableEq

/-- StateMachineImpl::update (state_machine.cpp lines 34-151): add deltaTime
to timeInState, then dispatch on the current state.  The boolean is true
exactly when the trigger callback fires (the Detecting-to-Triggered
transition).  transitionTo resets timeInState to 0; staying in the same state
keeps the accumulated time. -/
def smUpdate (cfg : StateMachineConfig) (m : StateMachine) (confidence : ℚ) (delta : ℕ) :
    StateMachine × Bool :=
  let t := m.timeInState + delta
  match m.state with
  | SMState.Idle =>
      if cfg.detectionThreshold ≤ confidence then (⟨SMState.Detecting, 0⟩, false)
      else (⟨SMState.Idle, t⟩, false)
  | SMState.Training => (⟨SMState.Training, t⟩, false)
  | SMState.Detecting =>
      if confidence < cfg.detectionThreshold then (⟨SMState.Idle, 0⟩, false)
      else if cfg.minDetectionDuration ≤ t then (⟨SMState.Triggered, 0⟩, true)
      else (⟨SMState.Detecting, t⟩, false)
  | SMState.Triggered => (⟨SMState.Cooldown, 0⟩, false)
  | SMState.Cooldown =>
      if cfg.cooldownDuration ≤ t then (⟨SMState.Idle, 0⟩, false)
      else (⟨SMState.Cooldown, t⟩, false)

/-- A sequence of update calls, each a (confidence, deltaTime) pair; returns
the final machine state and how many times the trigger callback fired. -/
def smRun (cfg : StateMachineConfig) : StateMachine → List (ℚ × ℕ) → StateMachine × ℕ
  | m, [] => (m, 0)
  | m, u :: rest =>
      ((smRun cfg (smUpdate cfg m u.1 u.2).1 rest).1,
       (if (smUpdate cfg m u.1 u.2).2 then 1 else 0) +
         (smRun cfg (smUpdate cfg m u.1 u.2).1 rest).2)

/-- State of a PatternTrainer (pattern_trainer.cpp, struct PatternTrainer::Impl):
the accumulation buffers and the computed profile with its thresholds.  The
config, stats and callback members play no role in the claims below. -/
structure PatternTrainer where
  training : Bool
  complete : Bool
  spectra : List (List ℚ)
  energies : List ℚ
  spectralFlatnesses : List ℚ
  spectralProfile : List ℚ
  energyThreshold : ℚ
  spectralFlatnessThreshold : ℚ
  deriving DecidableEq

/-- PatternTrainer::cancelTraining (pattern_trainer.cpp lines 278-290). -/
def cancelTraining (pt : PatternTrainer) : PatternTrainer :=
  { pt with training := false, complete := false,
            spectra := [], energies := [], spectralFlatnesses := [],
            spectralProfile := [], energyThreshold := 0, spectralFlatnessThreshold := 0 }

/-- A freshly constructed detector (FFTNoiseDetector constructor defaults):
sensitivity 0.7, no training data, minimum detection duration 300 ms, empty
histories, flatness threshold 0.3. -/
def detector0 : Detector :=
  { sampleRate := 48000, fftSize := 2048, sensitivity := 7/10, training := false,
    hasTrainingData := false, minDetectionDurationMs := 300,
    trainSpectra := [], trainEnergies := [], trainFlatnesses := [],
    spectralProfile := [], tdEnergyThreshold := 0, tdCorrelationThreshold := 0,
    tdSampleRate := 0, tdTrainedAt := 0, spectralFlatnessThreshold := 3/10,
    detectionStartTime := 0, isCurrentlyDetecting := false,
    spikeTriggered := false, spikeTime := 0,
    energyHistory := [], energyHistoryIndex := 0,
    confidenceHistory := [], confidenceHistoryIndex := 0 }

/-- A constant correlation kernel used to instantiate theorems on concrete runs. -/
def cfOne : List ℚ → List ℚ → ℚ := fun _ _ => 1

/-- A constant energy-consistency kernel used to instantiate theorems. -/
def kfOne : List ℚ → ℚ := fun _ => 1

/-- A concrete spectral result: energy 1/5 (above the 1/10 spike level),
flatness 1/2, one spectral bin. -/
def spTest : SpectralResult := ⟨[1], 1/2, 1/5⟩

/-- A detector with a trained profile, used for persistence scenarios. -/
def st4 : Detector :=
  { detector0 with
      hasTrainingData := true, spectralProfile := [1],
      tdEnergyThreshold := 2, tdCorrelationThreshold := 3,
      spectralFlatnessThreshold := 4, tdSampleRate := 48000, tdTrainedAt := 7 }

/-- A file with a fully valid header announcing two profile bins but an empty
payload: a file truncated inside the profile data. -/
def f4 : TrainingFile := ⟨⟨MAGIC, 1, 48000, 2048, 2, 5, 6, 7, 0, [0, 0, 0, 0]⟩, []⟩

/-- A header whose sampleRate 44100 and fftSize 512 both differ from
detector0's 48000 and 2048; otherwise well formed with one profile bin. -/
def h10 : TrainingDataHeader := ⟨MAGIC, 1, 44100, 512, 1, 5, 6, 7, 99, [0, 0, 0, 0]⟩

/-- A detector in training mode at sensitivity 0.5 with five accepted samples
of spectrum [3, 4] (averaged profile [3, 4], sum of squares 25, norm 5). -/
def st9train : Detector :=
  { detector0 with
      training := true, sensitivity := 1/2,
      trainSpectra := [[3, 4], [3, 4], [3, 4], [3, 4], [3, 4]],
      trainEnergies := [1, 1, 1, 1, 1],
      trainFlatnesses := [1/2, 1/2, 1/2, 1/2, 1/2] }

/-- A trained detector at sensitivity 0.5. -/
def st9set : Detector :=
  { detector0 with
      hasTrainingData := true, sensitivity := 1/2,
      tdCorrelationThreshold := 11/20 }

/-- A pattern trainer whose profile has already been computed. -/
def ptTrained : PatternTrainer := ⟨false, true, [], [], [], [1], 2, 1/2⟩

/-- A trained detector with minimum detection duration 0 ms, used to drive a
concrete detection run: energy threshold 1, profile [1]. -/
def st1run : Detector :=
  { detector0 with
      hasTrainingData := true, minDetectionDurationMs := 0,
      spectralProfile := [1], tdEnergyThreshold := 1 }

/-- Four spTest blocks at 0, 10, 20 and 30 ms: with the constant kernels the
confidence of each block is 0.35 * 0 + 0.35 + 0.30 = 0.65 >= 0.60, the first
block's energy 1/5 > 1/10 arms the spike, and the fourth block reaches 4 high
hits, starting the streak. -/
def w1inputs : List (Option SpectralResult × ℕ) :=
  [(some spTest, 0), (some spTest, 10), (some spTest, 20), (some spTest, 30)]

lemma sumSq_nil : sumSq [] = 0 := rfl

lemma sumSq_cons (a : ℚ) (l : List ℚ) : sumSq (a :: l) = a * a + sumSq l := by
  simp [sumSq]

lemma sumSq_map_div (l : List ℚ) (c : ℚ) (hc : c ≠ 0) :
    sumSq (l.map (fun x => x / c)) = sumSq l / (c * c) := by
  induction l with
  | nil => simp [sumSq]
  | cons a l ih =>
      simp only [List.map_cons, sumSq_cons, ih]
      field_simp

/-- C2 counterexample: at energy 0.65 and energyThreshold 1 the ratio 0.65
lies in [0.3, 1); the claimed linear ramp from 0 to 0.8 would give
0.8 * (0.65 - 0.3) / 0.7 = 0.4, but the code computes (0.65 - 0.3) / 0.7 =
0.5 — the ramp rises toward 1, not 0.8. -/
theorem c2_energy_ratio_counterexample :
    energyRatioScore (13/20) 1 = 1/2
    ∧ energyRatioScore (13/20) 1 ≠ (8/10) * ((13/20 - 3/10) / (7/10)) := by
  constructor <;> norm_num [energyRatioScore, EPSILON]

/-- C2 (amended): with energyThreshold > EPSILON and ratio =
energy / energyThreshold, the energy-ratio factor is (ratio - 0.3) / 0.7 on
[0.3, 1) — rising linearly from 0 toward 1, not toward 0.8 —
min(1, 0.8 + 0.04 * ratio) on [1, 5], saturating slowly toward 1, and 0 for
ratios outside [0.3, 5]. -/
theorem c2_energy_ratio_piecewise (energy th : ℚ) (hth : EPSILON < th) :
    (3/10 ≤ energy / th → energy / th < 1 →
        energyRatioScore energy th = (energy / th - 3/10) / (7/10))
    ∧ (1 ≤ energy / th → energy / th ≤ 5 →
        energyRatioScore energy th = min 1 (8/10 + energy / th * (4/100)))
    ∧ (energy / th < 3/10 ∨ 5 < energy / th → energyRatioScore energy th = 0) := by
  refine ⟨?_, ?_, ?_⟩
  · intro ha hb
    simp only [energyRatioScore]
    rw [if_pos hth, if_pos ⟨ha, by linarith⟩, if_pos hb]
  · intro ha hb
    simp only [energyRatioScore]
    rw [if_pos hth, if_pos ⟨by linarith, hb⟩, if_neg (by linarith)]
  · intro h
    simp only [energyRatioScore]
    rw [if_pos hth]
    rcases h with h | h
    · rw [if_neg (by rintro ⟨h1, h2⟩; linarith)]
    · rw [if_neg (by rintro ⟨h1, h2⟩; linarith)]

/-- Witness for c2_energy_ratio_piecewise at energy 0.65 and threshold 1. -/
theorem c2_energy_ratio_piecewise_witness :
    (3/10 ≤ (13/20 : ℚ) / 1 ∧ (13/20 : ℚ) / 1 < 1)
    ∧ energyRatioScore (13/20) 1 = ((13/20 : ℚ) / 1 - 3/10) / (7/10) :=
  ⟨⟨by norm_num, by norm_num⟩,
   (c2_energy_ratio_piecewise (13/20) 1 (by norm_num [EPSILON])).1
     (by norm_num) (by norm_num)⟩

/-- C4 counterexample: loading a file with a fully valid header announcing
profileSize 2 but an empty payload (truncated inside the profile data)
returns false, yet the in-memory spectralProfile has been resized from [1]
to [1, 0] — this failure case does not leave the in-memory profile
unchanged. -/
theorem c4_counterexample :
    (loadTrainingData st4 (some f4)).2 = false
    ∧ (loadTrainingData st4 (some f4)).1.spectralProfile = [1, 0]
    ∧ (loadTrainingData st4 (some f4)).1.spectralProfile ≠ st4.spectralProfile := by
  refine ⟨?_, ?_, ?_⟩ <;> decide

/-- C4 (amended): save and load return false on a missing profile, bad magic,
unsupported version, profile size outside (0, 100000], or any open, read or
write failure; save never mutates the detector, and every load failure leaves
the thresholds and the hasTrainingData flag unchanged.  The stored
spectralProfile is also unchanged on every load failure except a read failure
after a valid header (a truncated file), where it has already been resized. -/
theorem c4_failure_semantics :
    (∀ st oo wo, (saveTrainingData st oo wo).1 = st
       ∧ ((st.hasTrainingData = false ∨ oo = false ∨ wo = false) →
           (saveTrainingData st oo wo).2.2 = false))
    ∧ (∀ st, loadTrainingData st none = (st, false))
    ∧ (∀ st f, (f.header.magic ≠ MAGIC ∨ f.header.version ≠ 1 ∨
          f.header.profileSize = 0 ∨ 100000 < f.header.profileSize) →
        loadTrainingData st (some f) = (st, false))
    ∧ (∀ st f, f.header.magic = MAGIC → f.header.version = 1 →
        f.header.profileSize ≠ 0 → f.header.profileSize ≤ 100000 →
        f.payload.length < f.header.profileSize →
        ((loadTrainingData st (some f)).2 = false
         ∧ (loadTrainingData st (some f)).1.tdEnergyThreshold = st.tdEnergyThreshold
         ∧ (loadTrainingData st (some f)).1.tdCorrelationThreshold = st.tdCorrelationThreshold
         ∧ (loadTrainingData st (some f)).1.spectralFlatnessThreshold
             = st.spectralFlatnessThreshold
         ∧ (loadTrainingData st (some f)).1.hasTrainingData = st.hasTrainingData)) := by
  refine ⟨?_, ?_, ?_, ?_⟩
  · intro st oo wo
    constructor
    · unfold saveTrainingData
      split_ifs <;> rfl
    · intro h
      unfold saveTrainingData
      split_ifs with h1 h2 h3
      · rfl
      · rfl
      · rfl
      · exfalso
        rcases h with h | h | h
        · exact h1 h
        · exact h2 h
        · exact h3 h
  · intro st
    rfl
  · intro st f h
    simp only [loadTrainingData]
    split_ifs with h1 h2 h3 h4
    · rfl
    · rfl
    · rfl
    · exfalso
      rcases h with h | h | h | h
      · exact h1 h
      · exact h2 h
      · exact h3 (Or.inl h)
      · exact h3 (Or.inr h)
    · exfalso
      rcases h with h | h | h | h
      · exact h1 h
      · exact h2 h
      · exact h3 (Or.inl h)
      · exact h3 (Or.inr h)
  · intro st f hm hv h0 hs hlt
    simp only [loadTrainingData]
    rw [if_neg (by simp [hm]), if_neg (by simp [hv]),
        if_neg (not_or.mpr ⟨h0, by omega⟩), if_pos hlt]
    exact ⟨rfl, rfl, rfl, rfl, rfl⟩

/-- Witness for c4_failure_semantics: an untrained save fails, a failed open
fails, and the truncated-file load fails with thresholds intact. -/
theorem c4_failure_semantics_witness :
    (saveTrainingData detector0 true true).2.2 = false
    ∧ loadTrainingData detector0 none = (detector0, false)
    ∧ ((loadTrainingData st4 (some f4)).2 = false
       ∧ (loadTrainingData st4 (some f4)).1.tdEnergyThreshold = st4.tdEnergyThreshold) :=
  ⟨(c4_failure_semantics.1 detector0 true true).2 (Or.inl rfl),
   c4_failure_semantics.2.1 detector0,
   ⟨(c4_failure_semantics.2.2.2 st4 f4 rfl rfl (by decide) (by decide) (by decide)).1,
    (c4_failure_semantics.2.2.2 st4 f4 rfl rfl (by decide) (by decide) (by decide)).2.1⟩⟩

/-- C5: finishTraining with fewer than 5 accepted samples returns false and
leaves the trained profile, thresholds and hasTrainingData untouched; a
sample is accepted exactly when training is active and its energy exceeds
0.00001; and with at least 5 accepted samples finishTraining returns true and
the resulting profile has unit L2 norm (sum of squares 1, stated with the
norm value nrm of the averaged profile, nrm * nrm = sumSq, which the source
obtains by sqrt; the averaged spectrum must not be all-zero, nrm > EPSILON,
which holds for any real FFT output of a block with positive energy). -/
theorem c5_finish_training :
    (∀ st nrm ts, st.trainSpectra.length < 5 →
        ((finishTraining st nrm ts).2 = false
         ∧ (finishTraining st nrm ts).1.spectralProfile = st.spectralProfile
         ∧ (finishTraining st nrm ts).1.tdEnergyThreshold = st.tdEnergyThreshold
         ∧ (finishTraining st nrm ts).1.tdCorrelationThreshold = st.tdCorrelationThreshold
         ∧ (finishTraining st nrm ts).1.spectralFlatnessThreshold
             = st.spectralFlatnessThreshold
         ∧ (finishTraining st nrm ts).1.hasTrainingData = st.hasTrainingData))
    ∧ (∀ st sp, st.training = true → 1/100000 < sp.energy →
        (addTrainingSample st (some sp)).trainSpectra.length
          = st.trainSpectra.length + 1)
    ∧ (∀ st nrm ts, st.training = true → 5 ≤ st.trainSpectra.length →
        nrm * nrm = sumSq (avgProfile st.trainSpectra) → EPSILON < nrm →
        ((finishTraining st nrm ts).2 = true
         ∧ sumSq (finishTraining st nrm ts).1.spectralProfile = 1)) := by
  refine ⟨?_, ?_, ?_⟩
  · intro st nrm ts hlen
    unfold finishTraining
    split_ifs with h1 h2
    · exact ⟨rfl, rfl, rfl, rfl, rfl, rfl⟩
    · exact ⟨rfl, rfl, rfl, rfl, rfl, rfl⟩
    · exact ⟨rfl, rfl, rfl, rfl, rfl, rfl⟩
  · intro st sp htr he
    simp only [addTrainingSample]
    rw [if_neg (by simp [htr]), if_pos he]
    simp
  · intro st nrm ts htr hlen hnrm heps
    have hne : st.trainSpectra.isEmpty = false := by
      cases h : st.trainSpectra with
      | nil => rw [h] at hlen; simp at hlen
      | cons a l => rfl
    have hc : nrm ≠ 0 := by
      have h0 : (0:ℚ) < EPSILON := by norm_num [EPSILON]
      intro hz
      rw [hz] at heps
      linarith
    unfold finishTraining
    rw [if_neg (by simp [htr]), if_neg (by simp [hne]), if_neg (by omega)]
    refine ⟨rfl, ?_⟩
    show sumSq (normalizeVector (avgProfile st.trainSpectra) nrm) = 1
    unfold normalizeVector
    rw [if_pos heps, sumSq_map_div _ _ hc, ← hnrm,
        div_self (mul_ne_zero hc hc)]

/-- Witness for c5_finish_training: an idle detector fails with 0 samples;
st9train accepts a sample of energy 1/5 and finishes with the unit-norm
profile [3/5, 4/5]. -/
theorem c5_finish_training_witness :
    ((finishTraining detector0 1 0).2 = false
     ∧ (finishTraining detector0 1 0).1.spectralProfile = detector0.spectralProfile)
    ∧ (addTrainingSample st9train (some spTest)).trainSpectra.length
        = st9train.trainSpectra.length + 1
    ∧ ((finishTraining st9train 5 0).2 = true
       ∧ sumSq (finishTraining st9train 5 0).1.spectralProfile = 1) :=
  ⟨⟨(c5_finish_training.1 detector0 1 0 (by decide)).1,
    (c5_finish_training.1 detector0 1 0 (by decide)).2.1⟩,
   c5_finish_training.2.1 st9train spTest rfl (by norm_num [spTest]),
   c5_finish_training.2.2 st9train 5 0 rfl (by decide)
     (by norm_num [st9train, detector0, avgProfile, sumSq, List.headI,
       List.foldl, List.zipWith, List.replicate, List.take])
     (by norm_num [EPSILON])⟩

/-- C6: with a trained profile of size in (0, 100000], a successful save
followed by a load of the produced file returns true and reproduces the
spectral profile and all three thresholds exactly (the model carries float32
payloads as exact rationals, so exact equality is the model's bit-for-bit). -/
theorem c6_save_load_roundtrip (st st2 : Detector) (hT : st.hasTrainingData = true)
    (h0 : st.spectralProfile.length ≠ 0) (h1 : st.spectralProfile.length ≤ 100000) :
    ∃ f : TrainingFile,
      (saveTrainingData st true true).2 = (some f, true)
      ∧ f.payload = st.spectralProfile
      ∧ (loadTrainingData st2 (some f)).2 = true
      ∧ (loadTrainingData st2 (some f)).1.spectralProfile = st.spectralProfile
      ∧ (loadTrainingData st2 (some f)).1.tdEnergyThreshold = st.tdEnergyThreshold
      ∧ (loadTrainingData st2 (some f)).1.tdCorrelationThreshold
          = st.tdCorrelationThreshold
      ∧ (loadTrainingData st2 (some f)).1.spectralFlatnessThreshold
          = st.spectralFlatnessThreshold := by
  have hd : (st2.spectralProfile.take st.spectralProfile.length ++
      List.replicate (st.spectralProfile.length - st2.spectralProfile.length) (0:ℚ)).drop
        st.spectralProfile.length = [] := by
    apply List.drop_eq_nil_of_le
    simp only [List.length_append, List.length_take, List.length_replicate]
    omega
  have hload : loadTrainingData st2
      (some ⟨⟨MAGIC, 1, st.tdSampleRate, st.fftSize, st.spectralProfile.length,
        st.tdEnergyThreshold, st.tdCorrelationThreshold, st.spectralFlatnessThreshold,
        st.tdTrainedAt, [0, 0, 0, 0]⟩, st.spectralProfile⟩)
      = ({ st2 with
            spectralProfile := st.spectralProfile,
            tdSampleRate := st.tdSampleRate,
            tdEnergyThreshold := st.tdEnergyThreshold,
            tdCorrelationThreshold := st.tdCorrelationThreshold,
            spectralFlatnessThreshold := st.spectralFlatnessThreshold,
            tdTrainedAt := st.tdTrainedAt,
            hasTrainingData := true }, true) := by
    simp only [loadTrainingData]
    rw [if_neg (by simp), if_neg (by simp),
        if_neg (not_or.mpr ⟨h0, by omega⟩), if_neg (by omega)]
    simp [min_self, List.take_length, hd]
  refine ⟨⟨⟨MAGIC, 1, st.tdSampleRate, st.fftSize, st.spectralProfile.length,
      st.tdEnergyThreshold, st.tdCorrelationThreshold, st.spectralFlatnessThreshold,
      st.tdTrainedAt, [0, 0, 0, 0]⟩, st.spectralProfile⟩, ?_, rfl, ?_, ?_, ?_, ?_, ?_⟩
  · unfold saveTrainingData
    rw [if_neg (by simp [hT])]
    rfl
  · rw [hload]
  · rw [hload]
  · rw [hload]
  · rw [hload]
  · rw [hload]

/-- Witness for c6_save_load_roundtrip: st4 has profile [1]; saving and
reloading into a fresh detector reproduces profile and thresholds. -/
theorem c6_save_load_roundtrip_witness :
    ∃ f : TrainingFile,
      (saveTrainingData st4 true true).2 = (some f, true)
      ∧ f.payload = st4.spectralProfile
      ∧ (loadTrainingData detector0 (some f)).2 = true
      ∧ (loadTrainingData detector0 (some f)).1.spectralProfile = st4.spectralProfile
      ∧ (loadTrainingData detector0 (some f)).1.tdEnergyThreshold = st4.tdEnergyThreshold
      ∧ (loadTrainingData detector0 (some f)).1.tdCorrelationThreshold
          = st4.tdCorrelationThreshold
      ∧ (loadTrainingData detector0 (some f)).1.spectralFlatnessThreshold
          = st4.spectralFlatnessThreshold :=
  c6_save_load_roundtrip st4 detector0 rfl (by decide) (by decide)

/-- C7 counterexample: on a trainer whose profile was already computed
(spectralProfile [1], energyThreshold 2, flatness threshold 1/2),
cancelTraining clears the profile and zeroes both thresholds — it does not
leave the previously computed profile and thresholds unchanged. -/
theorem c7_cancel_counterexample :
    (cancelTraining ptTrained).spectralProfile ≠ ptTrained.spectralProfile
    ∧ (cancelTraining ptTrained).energyThreshold ≠ ptTrained.energyThreshold
    ∧ (cancelTraining ptTrained).spectralFlatnessThreshold
        ≠ ptTrained.spectralFlatnessThreshold := by
  refine ⟨?_, ?_, ?_⟩ <;> norm_num [cancelTraining, ptTrained]

/-- C7 (amended): cancelTraining discards the accumulated samples AND resets
the computed results: it clears the spectral profile, zeroes energyThreshold
and spectralFlatnessThreshold, and clears the training and complete flags. -/
theorem c7_cancel_resets (pt : PatternTrainer) :
    cancelTraining pt = ⟨false, false, [], [], [], [], 0, 0⟩ := rfl

/-- C8: analyze with a null samples pointer or zero count returns the all-zero
result (confidence 0, isWhiteNoise false), and with no trained profile it
returns confidence 0, correlation 0 and isWhiteNoise false for every input.
Both are ordinary total returns of the model, not errors. -/
theorem c8_no_signal :
    (∀ cf : List ℚ → List ℚ → ℚ, ∀ kf : List ℚ → ℚ, ∀ st now,
        (analyzeStep cf kf st none now).2.1 = ⟨0, 0, 0, 0, false⟩)
    ∧ (∀ cf : List ℚ → List ℚ → ℚ, ∀ kf : List ℚ → ℚ, ∀ st sp now,
        st.hasTrainingData = false →
        (analyzeStep cf kf st (some sp) now).2.1
          = ⟨0, sp.energy, sp.spectralFlatness, 0, false⟩) := by
  constructor
  · intro cf kf st now
    rfl
  · intro cf kf st sp now h
    simp only [analyzeStep]
    rw [if_pos h]

/-- Witness for c8_no_signal on a fresh untrained detector. -/
theorem c8_no_signal_witness :
    (analyzeStep cfOne kfOne detector0 none 0).2.1 = ⟨0, 0, 0, 0, false⟩
    ∧ (analyzeStep cfOne kfOne detector0 (some spTest) 0).2.1
        = ⟨0, spTest.energy, spTest.spectralFlatness, 0, false⟩ :=
  ⟨c8_no_signal.1 cfOne kfOne detector0 0,
   c8_no_signal.2 cfOne kfOne detector0 spTest 0 rfl⟩

/-- C9 counterexample: with sensitivity 0.5, finishTraining sets the
correlation threshold to 0.4 + 0.5 * 0.3 = 0.55, and a subsequent
setSensitivity(0.5) overwrites it with 0.3 + 0.5 * 0.5 = 0.55 — the same
value, refuting that the two formulas always yield different thresholds for
the same sensitivity. -/
theorem c9_counterexample :
    (setSensitivity (finishTraining st9train 5 0).1 (1/2)).tdCorrelationThreshold
      = (finishTraining st9train 5 0).1.tdCorrelationThreshold := by
  norm_num [setSensitivity, finishTraining, st9train, detector0, List.isEmpty]

/-- C9 (amended): setSensitivity clamps its argument to [0, 1] and, when a
trained profile exists, overwrites correlationThreshold with
0.3 + (1 - s) * 0.5; finishTraining instead applies 0.4 + (1 - s) * 0.3; the
two formulas yield different thresholds for every clamped sensitivity except
exactly 0.5, where both give 0.55. -/
theorem c9_set_sensitivity (st : Detector) (s : ℚ) :
    ((setSensitivity st s).sensitivity = min (max s 0) 1)
    ∧ (st.hasTrainingData = true →
        (setSensitivity st s).tdCorrelationThreshold
          = 3/10 + (1 - min (max s 0) 1) * (5/10))
    ∧ (st.hasTrainingData = false →
        (setSensitivity st s).tdCorrelationThreshold = st.tdCorrelationThreshold)
    ∧ (∀ nrm ts, st.training = true → 5 ≤ st.trainSpectra.length →
        (finishTraining st nrm ts).1.tdCorrelationThreshold
          = 4/10 + (1 - st.sensitivity) * (3/10))
    ∧ (min (max s 0) 1 ≠ 1/2 →
        3/10 + (1 - min (max s 0) 1) * (5/10)
          ≠ 4/10 + (1 - min (max s 0) 1) * (3/10)) := by
  refine ⟨?_, ?_, ?_, ?_, ?_⟩
  · unfold setSensitivity
    split_ifs <;> rfl
  · intro h
    unfold setSensitivity
    rw [if_pos (by simp [h])]
  · intro h
    unfold setSensitivity
    rw [if_neg (by simp [h])]
  · intro nrm ts htr hlen
    have hne : st.trainSpectra.isEmpty = false := by
      cases h : st.trainSpectra with
      | nil => rw [h] at hlen; simp at hlen
      | cons a l => rfl
    unfold finishTraining
    rw [if_neg (by simp [htr]), if_neg (by simp [hne]), if_neg (by omega)]
  · intro hne heq
    exact hne (by linarith)

/-- Witness for c9_set_sensitivity at sensitivity 3/4 on a trained detector. -/
theorem c9_set_sensitivity_witness :
    (setSensitivity st9set (3/4)).sensitivity = min (max (3/4 : ℚ) 0) 1
    ∧ (setSensitivity st9set (3/4)).tdCorrelationThreshold
        = 3/10 + (1 - min (max (3/4 : ℚ) 0) 1) * (5/10)
    ∧ (3/10 + (1 - min (max (3/4 : ℚ) 0) 1) * (5/10)
        ≠ 4/10 + (1 - min (max (3/4 : ℚ) 0) 1) * (3/10)) :=
  ⟨(c9_set_sensitivity st9set (3/4)).1,
   (c9_set_sensitivity st9set (3/4)).2.1 rfl,
   (c9_set_sensitivity st9set (3/4)).2.2.2.2 (by norm_num)⟩

/-- C10: loadTrainingData accepts every well-formed file — correct magic,
version 1, profileSize in (0, 100000], enough payload — returning true and
setting hasTrainingData, for all header sampleRate and fftSize values and all
detector states: no compatibility check against the detector's own sample
rate or FFT size is performed (the statement quantifies over the header's
sampleRate and fftSize with no relation to st.sampleRate or st.fftSize, and
the loaded tdSampleRate is simply copied from the header). -/
theorem c10_load_no_compat_check (st : Detector) (h : TrainingDataHeader)
    (payload : List ℚ) (hm : h.magic = MAGIC) (hv : h.version = 1)
    (h0 : h.profileSize ≠ 0) (hs : h.profileSize ≤ 100000)
    (hp : h.profileSize ≤ payload.length) :
    (loadTrainingData st (some ⟨h, payload⟩)).2 = true
    ∧ (loadTrainingData st (some ⟨h, payload⟩)).1.hasTrainingData = true
    ∧ (loadTrainingData st (some ⟨h, payload⟩)).1.tdSampleRate = h.sampleRate := by
  simp only [loadTrainingData]
  rw [if_neg (by simp [hm]), if_neg (by simp [hv]),
      if_neg (not_or.mpr ⟨h0, by omega⟩), if_neg (by omega)]
  exact ⟨rfl, rfl, rfl⟩

/-- Witness for c10_load_no_compat_check: detector0 runs at 48000 Hz with
fftSize 2048, while the loaded header carries 44100 Hz and fftSize 512; the
load still succeeds. -/
theorem c10_load_no_compat_check_witness :
    (loadTrainingData detector0 (some ⟨h10, [1]⟩)).2 = true
    ∧ (loadTrainingData detector0 (some ⟨h10, [1]⟩)).1.hasTrainingData = true
    ∧ (loadTrainingData detector0 (some ⟨h10, [1]⟩)).1.tdSampleRate = h10.sampleRate :=
  c10_load_no_compat_check detector0 h10 [1] rfl rfl (by decide) (by decide) (by decide)

@[simp] lemma smRun_nil (cfg : StateMachineConfig) (m : StateMachine) :
    smRun cfg m [] = (m, 0) := rfl

@[simp] lemma smRun_cons (cfg : StateMachineConfig) (m : StateMachine) (u : ℚ × ℕ)
    (rest : List (ℚ × ℕ)) :
    smRun cfg m (u :: rest)
      = ((smRun cfg (smUpdate cfg m u.1 u.2).1 rest).1,
         (if (smUpdate cfg m u.1 u.2).2 then 1 else 0)
           + (smRun cfg (smUpdate cfg m u.1 u.2).1 rest).2) := rfl

lemma smRun_detect_loop (cfg : StateMachineConfig) (d : ℕ) (hd : 0 < d)
    (hθ : cfg.detectionThreshold ≤ 9/10) :
    ∀ m t : ℕ, 0 < m → t + m * d = cfg.minDetectionDuration →
      smRun cfg ⟨SMState.Detecting, t⟩ (List.replicate m ((9/10 : ℚ), d))
        = (⟨SMState.Triggered, 0⟩, 1) := by
  intro m
  induction m with
  | zero =>
      intro t h0 _
      exact absurd h0 (by omega)
  | succ m ih =>
      intro t _ hsum
      rcases Nat.eq_zero_or_pos m with hm0 | hmpos
      · subst hm0
        have hupd : smUpdate cfg ⟨SMState.Detecting, t⟩ (9/10) d
            = (⟨SMState.Triggered, 0⟩, true) := by
          simp only [smUpdate]
          rw [if_neg (not_lt.mpr hθ), if_pos (by omega)]
        simp [List.replicate_one, smRun_cons, smRun_nil, hupd]
      · have hmd : d ≤ m * d := Nat.le_mul_of_pos_left d hmpos
        rw [Nat.succ_mul] at hsum
        have hnofire : smUpdate cfg ⟨SMState.Detecting, t⟩ (9/10) d
            = (⟨SMState.Detecting, t + d⟩, false) := by
          simp only [smUpdate]
          rw [if_neg (not_lt.mpr hθ), if_neg (by intro hcon; linarith)]
        have hrec := ih (t + d) hmpos (by linarith)
        simp [List.replicate_succ, smRun_cons, hnofire, hrec]

/-- C3: from Idle, an update stream at confidence 0.9 — entering at elapsed
time 0 and then advancing in n steps of d ms with n * d =
minDetectionDuration — fires the trigger exactly once over those updates and
ends in Triggered; the following update unconditionally enters Cooldown
without firing; every update in Cooldown fires nothing, returns to Idle once
cooldownDuration has elapsed in Cooldown, and stays in Cooldown before that,
regardless of the (still high) confidence. -/
theorem c3_trigger_once (cfg : StateMachineConfig) (n d : ℕ) (hn : 0 < n) (hd : 0 < d)
    (hD : cfg.minDetectionDuration = n * d) (hθ : cfg.detectionThreshold ≤ 9/10) :
    smRun cfg ⟨SMState.Idle, 0⟩ (((9/10 : ℚ), 0) :: List.replicate n ((9/10 : ℚ), d))
        = (⟨SMState.Triggered, 0⟩, 1)
    ∧ (∀ c : ℚ, ∀ dt t : ℕ,
        smUpdate cfg ⟨SMState.Triggered, t⟩ c dt = (⟨SMState.Cooldown, 0⟩, false))
    ∧ (∀ c : ℚ, ∀ dt t : ℕ, (smUpdate cfg ⟨SMState.Cooldown, t⟩ c dt).2 = false)
    ∧ (∀ c : ℚ, ∀ dt t : ℕ, cfg.cooldownDuration ≤ t + dt →
        (smUpdate cfg ⟨SMState.Cooldown, t⟩ c dt).1 = ⟨SMState.Idle, 0⟩)
    ∧ (∀ c : ℚ, ∀ dt t : ℕ, t + dt < cfg.cooldownDuration →
        (smUpdate cfg ⟨SMState.Cooldown, t⟩ c dt).1 = ⟨SMState.Cooldown, t + dt⟩) := by
  refine ⟨?_, ?_, ?_, ?_, ?_⟩
  · have hfirst : smUpdate cfg ⟨SMState.Idle, 0⟩ (9/10) 0 = (⟨SMState.Detecting, 0⟩, false) := by
      simp only [smUpdate]
      rw [if_pos hθ]
    have hloop := smRun_detect_loop cfg d hd hθ n 0 hn (by rw [hD]; omega)
    simp [smRun_cons, hfirst, hloop]
  · intro c dt t
    rfl
  · intro c dt t
    simp only [smUpdate]
    split_ifs <;> rfl
  · intro c dt t h
    simp only [smUpdate]
    rw [if_pos h]
  · intro c dt t h
    simp only [smUpdate]
    rw [if_neg (by omega)]

/-- Witness for c3_trigger_once: minDetectionDuration 300 ms split into three
100 ms updates, cooldown 300 ms, threshold 0.7. -/
theorem c3_trigger_once_witness :
    smRun ⟨300, 300, 7/10⟩ ⟨SMState.Idle, 0⟩
        (((9/10 : ℚ), 0) :: List.replicate 3 ((9/10 : ℚ), 100))
      = (⟨SMState.Triggered, 0⟩, 1)
    ∧ smUpdate ⟨300, 300, 7/10⟩ ⟨SMState.Triggered, 0⟩ (9/10) 100
        = (⟨SMState.Cooldown, 0⟩, false)
    ∧ (smUpdate ⟨300, 300, 7/10⟩ ⟨SMState.Cooldown, 100⟩ (9/10) 100).2 = false
    ∧ (smUpdate ⟨300, 300, 7/10⟩ ⟨SMState.Cooldown, 200⟩ (9/10) 100).1 = ⟨SMState.Idle, 0⟩
    ∧ (smUpdate ⟨300, 300, 7/10⟩ ⟨SMState.Cooldown, 100⟩ (9/10) 100).1
        = ⟨SMState.Cooldown, 200⟩ :=
  ⟨(c3_trigger_once ⟨300, 300, 7/10⟩ 3 100 (by omega) (by omega) rfl (by norm_num)).1,
   (c3_trigger_once ⟨300, 300, 7/10⟩ 3 100 (by omega) (by omega) rfl (by norm_num)).2.1
     (9/10) 100 0,
   (c3_trigger_once ⟨300, 300, 7/10⟩ 3 100 (by omega) (by omega) rfl (by norm_num)).2.2.1
     (9/10) 100 100,
   (c3_trigger_once ⟨300, 300, 7/10⟩ 3 100 (by omega) (by omega) rfl (by norm_num)).2.2.2.1
     (9/10) 100 200 (by decide),
   (c3_trigger_once ⟨300, 300, 7/10⟩ 3 100 (by omega) (by omega) rfl (by norm_num)).2.2.2.2
     (9/10) 100 100 (by decide)⟩

lemma updateEnergyHistory_hasTrainingData (st : Detector) (e : ℚ) :
    (updateEnergyHistory st e).hasTrainingData = st.hasTrainingData := by
  unfold updateEnergyHistory
  split_ifs <;> rfl

lemma updateEnergyHistory_minDetectionDurationMs (st : Detector) (e : ℚ) :
    (updateEnergyHistory st e).minDetectionDurationMs = st.minDetectionDurationMs := by
  unfold updateEnergyHistory
  split_ifs <;> rfl

lemma updateEnergyHistory_isCurrentlyDetecting (st : Detector) (e : ℚ) :
    (updateEnergyHistory st e).isCurrentlyDetecting = st.isCurrentlyDetecting := by
  unfold updateEnergyHistory
  split_ifs <;> rfl

lemma updateEnergyHistory_detectionStartTime (st : Detector) (e : ℚ) :
    (updateEnergyHistory st e).detectionStartTime = st.detectionStartTime := by
  unfold updateEnergyHistory
  split_ifs <;> rfl

lemma updateConfidenceHistory_hasTrainingData (st : Detector) (b : Bool) :
    (updateConfidenceHistory st b).hasTrainingData = st.hasTrainingData := by
  unfold updateConfidenceHistory
  split_ifs <;> rfl

lemma updateConfidenceHistory_minDetectionDurationMs (st : Detector) (b : Bool) :
    (updateConfidenceHistory st b).minDetectionDurationMs = st.minDetectionDurationMs := by
  unfold updateConfidenceHistory
  split_ifs <;> rfl

lemma updateConfidenceHistory_isCurrentlyDetecting (st : Detector) (b : Bool) :
    (updateConfidenceHistory st b).isCurrentlyDetecting = st.isCurrentlyDetecting := by
  unfold updateConfidenceHistory
  split_ifs <;> rfl

lemma updateConfidenceHistory_detectionStartTime (st : Detector) (b : Bool) :
    (updateConfidenceHistory st b).detectionStartTime = st.detectionStartTime := by
  unfold updateConfidenceHistory
  split_ifs <;> rfl

lemma updateTemporalState_fst_hasTrainingData (st : Detector) (b : Bool) (now : ℕ) :
    (updateTemporalState st b now).1.hasTrainingData = st.hasTrainingData := by
  simp only [updateTemporalState]
  split_ifs <;> rfl

lemma updateTemporalState_fst_minDetectionDurationMs (st : Detector) (b : Bool) (now : ℕ) :
    (updateTemporalState st b now).1.minDetectionDurationMs = st.minDetectionDurationMs := by
  simp only [updateTemporalState]
  split_ifs <;> rfl

lemma updateTemporalState_fst_isCurrentlyDetecting (st : Detector) (b : Bool) (now : ℕ) :
    (updateTemporalState st b now).1.isCurrentlyDetecting = b := by
  simp only [updateTemporalState]
  split_ifs <;> simp_all

lemma updateTemporalState_fst_detectionStartTime (st : Detector) (b : Bool) (now : ℕ) :
    (updateTemporalState st b now).1.detectionStartTime
      = if b = true ∧ st.isCurrentlyDetecting = false then now else st.detectionStartTime := by
  simp only [updateTemporalState]
  split_ifs <;> simp_all

lemma updateTemporalState_snd_true (st : Detector) (b : Bool) (now : ℕ)
    (h : (updateTemporalState st b now).2 = true) :
    b = true ∧ (st.minDetectionDurationMs : ℤ)
        + ((updateTemporalState st b now).1.detectionStartTime : ℤ) ≤ (now : ℤ) := by
  revert h
  simp only [updateTemporalState]
  split_ifs <;> intro h <;> simp_all
  all_goals omega

lemma analyzeGate_hasTrainingData (cf : List ℚ → List ℚ → ℚ) (kf : List ℚ → ℚ)
    (st : Detector) (sp : SpectralResult) (now : ℕ) :
    (analyzeGate cf kf st sp now).1.hasTrainingData = st.hasTrainingData := by
  simp [analyzeGate, apply_ite Detector.hasTrainingData, ite_self,
        updateEnergyHistory_hasTrainingData, updateConfidenceHistory_hasTrainingData]

lemma analyzeGate_minDetectionDurationMs (cf : List ℚ → List ℚ → ℚ) (kf : List ℚ → ℚ)
    (st : Detector) (sp : SpectralResult) (now : ℕ) :
    (analyzeGate cf kf st sp now).1.minDetectionDurationMs = st.minDetectionDurationMs := by
  simp [analyzeGate, apply_ite Detector.minDetectionDurationMs, ite_self,
        updateEnergyHistory_minDetectionDurationMs,
        updateConfidenceHistory_minDetectionDurationMs]

lemma analyzeGate_isCurrentlyDetecting (cf : List ℚ → List ℚ → ℚ) (kf : List ℚ → ℚ)
    (st : Detector) (sp : SpectralResult) (now : ℕ) :
    (analyzeGate cf kf st sp now).1.isCurrentlyDetecting = st.isCurrentlyDetecting := by
  simp [analyzeGate, apply_ite Detector.isCurrentlyDetecting, ite_self,
        updateEnergyHistory_isCurrentlyDetecting, updateConfidenceHistory_isCurrentlyDetecting]

lemma analyzeGate_detectionStartTime (cf : List ℚ → List ℚ → ℚ) (kf : List ℚ → ℚ)
    (st : Detector) (sp : SpectralResult) (now : ℕ) :
    (analyzeGate cf kf st sp now).1.detectionStartTime = st.detectionStartTime := by
  simp [analyzeGate, apply_ite Detector.detectionStartTime, ite_self,
        updateEnergyHistory_detectionStartTime, updateConfidenceHistory_detectionStartTime]

lemma analyzeStep_fst_hasTrainingData (cf : List ℚ → List ℚ → ℚ) (kf : List ℚ → ℚ)
    (st : Detector) (input : Option SpectralResult) (now : ℕ) :
    (analyzeStep cf kf st input now).1.hasTrainingData = st.hasTrainingData := by
  cases input with
  | none => simp [analyzeStep, updateTemporalState_fst_hasTrainingData]
  | some sp =>
      by_cases hT : st.hasTrainingData = false
      · simp [analyzeStep, hT]
      · simp [analyzeStep, hT, updateTemporalState_fst_hasTrainingData,
              analyzeGate_hasTrainingData]

lemma analyzeStep_fst_minDetectionDurationMs (cf : List ℚ → List ℚ → ℚ) (kf : List ℚ → ℚ)
    (st : Detector) (input : Option SpectralResult) (now : ℕ) :
    (analyzeStep cf kf st input now).1.minDetectionDurationMs = st.minDetectionDurationMs := by
  cases input with
  | none => simp [analyzeStep, updateTemporalState_fst_minDetectionDurationMs]
  | some sp =>
      by_cases hT : st.hasTrainingData = false
      · simp [analyzeStep, hT]
      · simp [analyzeStep, hT, updateTemporalState_fst_minDetectionDurationMs,
              analyzeGate_minDetectionDurationMs]

lemma analyzeStep_fst_isCurrentlyDetecting (cf : List ℚ → List ℚ → ℚ) (kf : List ℚ → ℚ)
    (st : Detector) (input : Option SpectralResult) (now : ℕ)
    (hT : st.hasTrainingData = true) :
    (analyzeStep cf kf st input now).1.isCurrentlyDetecting
      = (analyzeStep cf kf st input now).2.2 := by
  cases input with
  | none => simp [analyzeStep, updateTemporalState_fst_isCurrentlyDetecting]
  | some sp => simp [analyzeStep, hT, updateTemporalState_fst_isCurrentlyDetecting]

lemma analyzeStep_fst_detectionStartTime (cf : List ℚ → List ℚ → ℚ) (kf : List ℚ → ℚ)
    (st : Detector) (input : Option SpectralResult) (now : ℕ)
    (hT : st.hasTrainingData = true) :
    (analyzeStep cf kf st input now).1.detectionStartTime
      = if (analyzeStep cf kf st input now).2.2 = true ∧ st.isCurrentlyDetecting = false
        then now else st.detectionStartTime := by
  cases input with
  | none => simp [analyzeStep, updateTemporalState_fst_detectionStartTime]
  | some sp =>
      simp [analyzeStep, hT, updateTemporalState_fst_detectionStartTime,
            analyzeGate_isCurrentlyDetecting, analyzeGate_detectionStartTime]

lemma analyzeStep_iswn_true (cf : List ℚ → List ℚ → ℚ) (kf : List ℚ → ℚ)
    (st : Detector) (input : Option SpectralResult) (now : ℕ)
    (hT : st.hasTrainingData = true)
    (h : (analyzeStep cf kf st input now).2.1.isWhiteNoise = true) :
    (analyzeStep cf kf st input now).2.2 = true
    ∧ (st.minDetectionDurationMs : ℤ)
        + ((analyzeStep cf kf st input now).1.detectionStartTime : ℤ) ≤ (now : ℤ) := by
  cases input with
  | none => simp [analyzeStep] at h
  | some sp =>
      have hT2 : ¬ st.hasTrainingData = false := by simp [hT]
      simp only [analyzeStep] at h ⊢
      rw [if_neg hT2] at h ⊢
      obtain ⟨hI, hb⟩ := updateTemporalState_snd_true _ _ _ h
      rw [analyzeGate_minDetectionDurationMs] at hb
      exact ⟨hI, hb⟩

@[simp] lemma analyzeRun_nil (cf : List ℚ → List ℚ → ℚ) (kf : List ℚ → ℚ) (st : Detector) :
    analyzeRun cf kf st [] = (st, []) := rfl

@[simp] lemma analyzeRun_cons (cf : List ℚ → List ℚ → ℚ) (kf : List ℚ → ℚ) (st : Detector)
    (inp : Option SpectralResult) (t : ℕ) (rest : List (Option SpectralResult × ℕ)) :
    analyzeRun cf kf st ((inp, t) :: rest)
      = ((analyzeRun cf kf (analyzeStep cf kf st inp t).1 rest).1,
         (analyzeStep cf kf st inp t).2
           :: (analyzeRun cf kf (analyzeStep cf kf st inp t).1 rest).2) := rfl

lemma analyzeRun_gate (cf : List ℚ → List ℚ → ℚ) (kf : List ℚ → ℚ) :
    ∀ (inputs : List (Option SpectralResult × ℕ)) (st : Detector),
      st.hasTrainingData = true →
      ∀ i, i < inputs.length →
        ((analyzeRun cf kf st inputs).2.getD i outDefault).1.isWhiteNoise = true →
        ((st.isCurrentlyDetecting = true
            ∧ (∀ k, k ≤ i → ((analyzeRun cf kf st inputs).2.getD k outDefault).2 = true)
            ∧ (st.minDetectionDurationMs : ℤ) + (st.detectionStartTime : ℤ)
                ≤ ((inputs.getD i inDefault).2 : ℤ))
         ∨ (∃ j, j ≤ i
            ∧ (∀ k, j ≤ k → k ≤ i →
                ((analyzeRun cf kf st inputs).2.getD k outDefault).2 = true)
            ∧ (st.minDetectionDurationMs : ℤ) + ((inputs.getD j inDefault).2 : ℤ)
                ≤ ((inputs.getD i inDefault).2 : ℤ))) := by
  intro inputs
  induction inputs with
  | nil =>
      intro st _ i hi
      simp at hi
  | cons p rest ih =>
      obtain ⟨inp, t⟩ := p
      intro st hT i hi hwn
      have hTpost : (analyzeStep cf kf st inp t).1.hasTrainingData = true := by
        rw [analyzeStep_fst_hasTrainingData]
        exact hT
      have hDpost := analyzeStep_fst_minDetectionDurationMs cf kf st inp t
      have hstart := analyzeStep_fst_detectionStartTime cf kf st inp t hT
      cases i with
      | zero =>
          rw [analyzeRun_cons] at hwn
          simp only [List.getD_cons_zero] at hwn
          obtain ⟨hI, hb⟩ := analyzeStep_iswn_true cf kf st inp t hT hwn
          by_cases hdet : st.isCurrentlyDetecting = true
          · left
            refine ⟨hdet, ?_, ?_⟩
            · intro k hk
              have hk0 : k = 0 := by omega
              subst hk0
              rw [analyzeRun_cons]
              simpa only [List.getD_cons_zero] using hI
            · rw [hstart, if_neg (by simp [hdet])] at hb
              simpa only [List.getD_cons_zero] using hb
          · right
            refine ⟨0, le_refl 0, ?_, ?_⟩
            · intro k _ hk
              have hk0 : k = 0 := by omega
              subst hk0
              rw [analyzeRun_cons]
              simpa only [List.getD_cons_zero] using hI
            · rw [hstart, if_pos ⟨hI, by simpa using hdet⟩] at hb
              simpa only [List.getD_cons_zero] using hb
      | succ i2 =>
          rw [analyzeRun_cons] at hwn
          simp only [List.getD_cons_succ] at hwn
          have hi2 : i2 < rest.length := by simpa using hi
          rcases ih (analyzeStep cf kf st inp t).1 hTpost i2 hi2 hwn with
            ⟨hdet1, hall, hb⟩ | ⟨j, hj, hall, hb⟩
          · have hI : (analyzeStep cf kf st inp t).2.2 = true := by
              rw [← analyzeStep_fst_isCurrentlyDetecting cf kf st inp t hT]
              exact hdet1
            rw [hDpost] at hb
            by_cases hdet : st.isCurrentlyDetecting = true
            · left
              refine ⟨hdet, ?_, ?_⟩
              · intro k hk
                cases k with
                | zero =>
                    rw [analyzeRun_cons]
                    simpa only [List.getD_cons_zero] using hI
                | succ k2 =>
                    rw [analyzeRun_cons]
                    simpa only [List.getD_cons_succ] using hall k2 (by omega)
              · rw [hstart, if_neg (by simp [hdet])] at hb
                simpa only [List.getD_cons_succ] using hb
            · right
              refine ⟨0, by omega, ?_, ?_⟩
              · intro k _ hk
                cases k with
                | zero =>
                    rw [analyzeRun_cons]
                    simpa only [List.getD_cons_zero] using hI
                | succ k2 =>
                    rw [analyzeRun_cons]
                    simpa only [List.getD_cons_succ] using hall k2 (by omega)
              · rw [hstart, if_pos ⟨hI, by simpa using hdet⟩] at hb
                simpa only [List.getD_cons_zero, List.getD_cons_succ] using hb
          · right
            rw [hDpost] at hb
            refine ⟨j + 1, by omega, ?_, ?_⟩
            · intro k hk1 hk2
              cases k with
              | zero => omega
              | succ k2 =>
                  rw [analyzeRun_cons]
                  simpa only [List.getD_cons_succ] using hall k2 (by omega) (by omega)
            · simpa only [List.getD_cons_succ] using hb

/-- C1: with a trained profile and starting outside a detection streak, any
run of analyze calls that reports isWhiteNoise = true at block i contains a
block j at or before i such that instant detection (the spike-gated decision
of analyzeGate: a currently-valid spike plus at least 4 high-confidence
blocks, at confidence >= 0.60, among the last 12 to start a streak, at least
2 to continue one) held on every block from j through i, and at least
minDetectionDurationMs elapsed between block j and block i.  Since the streak
start is the earliest such j, isWhiteNoise is never true before the duration
has elapsed since the streak began, and any block with instant detection
false forces the streak (hence the continuous-duration clock) to restart
after it. -/
theorem c1_temporal_gate (cf : List ℚ → List ℚ → ℚ) (kf : List ℚ → ℚ)
    (st : Detector) (inputs : List (Option SpectralResult × ℕ))
    (hT : st.hasTrainingData = true) (hIdle : st.isCurrentlyDetecting = false)
    (i : ℕ) (hi : i < inputs.length)
    (hwn : ((analyzeRun cf kf st inputs).2.getD i outDefault).1.isWhiteNoise = true) :
    ∃ j, j ≤ i
      ∧ (∀ k, j ≤ k → k ≤ i →
          ((analyzeRun cf kf st inputs).2.getD k outDefault).2 = true)
      ∧ (st.minDetectionDurationMs : ℤ) + ((inputs.getD j inDefault).2 : ℤ)
          ≤ ((inputs.getD i inDefault).2 : ℤ) := by
  rcases analyzeRun_gate cf kf inputs st hT i hi hwn with ⟨hdet, _, _⟩ | h
  · rw [hIdle] at hdet
    simp at hdet
  · exact h

/-- Witness for c1_temporal_gate: on the concrete four-block run w1inputs the
detector reports isWhiteNoise at block 3 (the streak starts there and
minDetectionDurationMs is 0). -/
theorem c1_temporal_gate_witness :
    ∃ j, j ≤ 3
      ∧ (∀ k, j ≤ k → k ≤ 3 →
          ((analyzeRun cfOne kfOne st1run w1inputs).2.getD k outDefault).2 = true)
      ∧ (st1run.minDetectionDurationMs : ℤ) + ((w1inputs.getD j inDefault).2 : ℤ)
          ≤ ((w1inputs.getD 3 inDefault).2 : ℤ) :=
  c1_temporal_gate cfOne kfOne st1run w1inputs rfl rfl 3 (by decide)
    (by norm_num [analyzeRun, analyzeStep, analyzeGate, updateTemporalState,
      updateEnergyHistory, updateConfidenceHistory, countHighConfidenceHits,
      energyRatioScore, EPSILON, cfOne, kfOne, spTest, st1run, detector0, w1inputs,
      outDefault, List.count_cons, List.count_nil])

end MicMap
